import Mathlib

/-!
Shallow embedding of the zks overlay-network control plane
(crates zks_wire and zks_wasm) for checking the specification's claims.

Byte buffers (`Vec<u8>`) are modelled as `List Nat`; machine-integer
subtraction is modelled with explicit wraparound (`% 2^64` for `usize`,
`% 2^256`-free `% 256` for `u8`) exactly where the source subtracts.
Network effects (the websocket stream, the rng, uuid generation) are
modelled as explicit inputs: a function receives the frames the socket
would deliver, the shuffle outcome the rng would produce, and the fresh
uuid string, and returns the value and state the source code computes
from them.
-/

namespace ZKS

/-! ## Data model (src/crates/zks_wire/src/signaling.rs) -/

/-- `PeerCapabilities` from signaling.rs. -/
structure PeerCapabilities where
  supports_p2p : Bool
  supports_relay : Bool
  supports_onion_routing : Bool
  max_message_size : Nat
  supported_protocols : List String
  max_hops : Nat
deriving DecidableEq, Repr

/-- `impl Default for PeerCapabilities` in signaling.rs. -/
def PeerCapabilities.defaultCaps : PeerCapabilities :=
  { supports_p2p := true
    supports_relay := true
    supports_onion_routing := false
    max_message_size := 65536
    supported_protocols := ["zks/1.0"]
    max_hops := 3 }

/-- `PeerInfo` from signaling.rs. -/
structure PeerInfo where
  peer_id : String
  public_key : List Nat
  capabilities : PeerCapabilities
  last_seen : Nat
  addresses : List String
deriving DecidableEq, Repr

/-- `SignalingMessage` from signaling.rs (the tagged wire enum). -/
inductive SignalingMessage where
  | join (room_id : String) (peer_info : PeerInfo)
  | leave (room_id : String)
  | discover (room_id : String)
  | peers (ps : List PeerInfo)
  | entropyRequest (room_id : String) (request_id : String)
  | entropyResponse (request_id : String) (entropy : List Nat) (signature : List Nat)
  | errorMsg (code : String) (message : String)
deriving DecidableEq, Repr

/-- `SignalingError` from signaling.rs. -/
inductive SignalingError where
  | connectionFailed (msg : String)
  | connectionClosed
  | sendFailed (msg : String)
  | receiveFailed (msg : String)
  | serializationFailed (msg : String)
  | deserializationFailed (msg : String)
  | serverError (msg : String)
  | unexpectedMessage (msg : String)
  | invalidEntropy (msg : String)
deriving DecidableEq, Repr

/-- One inbound websocket frame as seen by `SignalingClient::receive_message`.
A `text` frame carries the result of the serde_json parse of its text (the
JSON codec itself is external); the other constructors mirror the
`tungstenite::Message` variants the receive loop matches on.  `close`
covers both `Message::Close` and end of stream (`Ok(None)`), which the
source treats identically. -/
inductive InFrame where
  | text (parsed : Except String SignalingMessage)
  | binary (b : List Nat)
  | ping (b : List Nat)
  | pong (b : List Nat)
  | frame
  | close
  | wsError (e : String)
deriving Repr

/-- `SignalingClient::receive_message`: loop over incoming frames, skipping
binary/ping/pong/frame frames, returning the parsed message of the first
text frame, `ConnectionClosed` on close/end-of-stream, `ReceiveFailed` on a
websocket error.  An exhausted frame list models `Ok(None)`. -/
def receive_message : List InFrame → Except SignalingError SignalingMessage
  | [] => .error .connectionClosed
  | .text (.ok m) :: _ => .ok m
  | .text (.error e) :: _ =>
      .error (.deserializationFailed ("Failed to deserialize message: " ++ e))
  | .binary _ :: rest => receive_message rest
  | .ping _ :: rest => receive_message rest
  | .pong _ :: rest => receive_message rest
  | .frame :: rest => receive_message rest
  | .close :: _ => .error .connectionClosed
  | .wsError e :: _ => .error (.receiveFailed ("WebSocket error: " ++ e))

/-- `SignalingClient::get_swarm_entropy`, signaling.rs lines 165-197.
`request_id` is the freshly generated uuid; `frames` are the frames the
socket delivers after the `EntropyRequest` send (the send itself only
produces network output and cannot fail in this model).  Mirrors the match
on the received message: mismatched request id rejected as
`UnexpectedMessage`, wrong entropy length as `InvalidEntropy`, otherwise
the 32 entropy bytes are returned (copy_from_slice copies them verbatim). -/
def get_swarm_entropy (request_id : String) (frames : List InFrame) :
    Except SignalingError (List Nat) :=
  match receive_message frames with
  | .error e => .error e
  | .ok (.entropyResponse resp_id entropy _sig) =>
      if resp_id ≠ request_id then
        .error (.unexpectedMessage "Request ID mismatch")
      else if entropy.length ≠ 32 then
        .error (.invalidEntropy "Entropy must be 32 bytes")
      else
        .ok entropy
  | .ok (.errorMsg code message) => .error (.serverError (code ++ ": " ++ message))
  | .ok _ => .error (.unexpectedMessage "Expected EntropyResponse")

/-- `str::starts_with` on strings, computed on the character lists so the
kernel can evaluate it on concrete inputs. -/
def strStartsWith (s pre : String) : Bool :=
  pre.data.isPrefixOf s.data

/-- `str::trim_end_matches('/')`: remove every trailing `'/'`. -/
def trimEndSlashes (s : String) : String :=
  ⟨(s.data.reverse.dropWhile (fun c => c = '/')).reverse⟩

/-- URL normalization in `SignalingClient::connect`, signaling.rs lines
100-104: a url starting with a websocket scheme is used unchanged,
otherwise trailing slashes are trimmed, the secure scheme is prefixed and
the fixed `/signaling` path appended. -/
def normalize_signaling_url (url : String) : String :=
  if strStartsWith url "ws://" || strStartsWith url "wss://" then
    url
  else
    "wss://" ++ trimEndSlashes url ++ "/signaling"

/-! ## Swarm controller (src/crates/zks_wire/src/swarm_controller.rs) -/

/-- `Platform` from swarm_controller.rs; `Platform::detect` picks one value
per compilation target, fixed for the controller's lifetime, so the
embedding is parameterized by it. -/
inductive Platform where
  | native
  | webAssembly
deriving DecidableEq, Repr

/-- `TransportCapabilities` from swarm_controller.rs. -/
structure TransportCapabilities where
  supports_direct_p2p : Bool
  supports_nat_traversal : Bool
  supports_relay : Bool
  max_hops : Nat
  min_hops : Nat
deriving DecidableEq, Repr

/-- `SwarmController::transport_capabilities`, swarm_controller.rs lines
158-175: fixed per-platform bounds. -/
def transport_capabilities : Platform → TransportCapabilities
  | .native =>
      { supports_direct_p2p := true
        supports_nat_traversal := true
        supports_relay := true
        max_hops := 8
        min_hops := 2 }
  | .webAssembly =>
      { supports_direct_p2p := false
        supports_nat_traversal := false
        supports_relay := true
        max_hops := 6
        min_hops := 3 }

/-- `SwarmControllerError` from swarm_controller.rs (the `Io` variant,
which only wraps a foreign `std::io::Error`, is represented by its
message). -/
inductive SwarmControllerError where
  | notConnected
  | signalingError (msg : String)
  | transportError (msg : String)
  | invalidCircuitConfig (msg : String)
  | notEnoughPeers (msg : String)
  | circuitError (msg : String)
  | ioError (msg : String)
deriving DecidableEq, Repr

/-- Modulus of the `usize` type on the 64-bit targets the crate builds
for; used where the source computes `max_hops as usize - 1`. -/
def USIZE : Nat := 2 ^ 64

/-- The controller's view of an installed `SignalingClient`: the client
holds its websocket stream (external) and the peer id it was created
with. -/
structure SignalingClientHandle where
  peer_id : String
deriving DecidableEq, Repr

/-- The mutable fields of `SwarmController` (the `Arc<RwLock<_>>` cells):
optional signaling client, connected flag, optional local peer id.  The
native-only `native_transport` cell is never read by the operations the
claims concern and is omitted. -/
structure CtrlState where
  signaling_client : Option SignalingClientHandle
  is_connected : Bool
  local_peer_id : Option String
deriving DecidableEq, Repr

/-- `SwarmController::new`: all cells empty/false. -/
def CtrlState.initial : CtrlState :=
  { signaling_client := none, is_connected := false, local_peer_id := none }

/-- `SwarmController::connect`, swarm_controller.rs lines 76-95.  The
`handshake` argument models the outcome of
`SignalingClient::connect(signaling_url, local_peer_id)` (the network
side); on success the constructed client carries the supplied peer id.
The source stores `local_peer_id` BEFORE attempting the handshake, so a
failed handshake leaves the new peer id behind. -/
def SwarmController.connect (s : CtrlState) (local_peer_id : String)
    (handshake : Except String Unit) :
    Except SwarmControllerError Unit × CtrlState :=
  let s1 : CtrlState := { s with local_peer_id := some local_peer_id }
  match handshake with
  | .error e =>
      (.error (.signalingError ("Failed to connect to signaling server: " ++ e)), s1)
  | .ok _ =>
      (.ok (),
        { s1 with
          signaling_client := some { peer_id := local_peer_id }
          is_connected := true })

/-- `SwarmController::local_peer_id`. -/
def SwarmController.local_peer_id (s : CtrlState) : Option String :=
  s.local_peer_id

/-- `SwarmController::is_connected`. -/
def SwarmController.is_connected (s : CtrlState) : Bool :=
  s.is_connected

/-- `SwarmController::disconnect`, swarm_controller.rs lines 147-155. -/
def SwarmController.disconnect (s : CtrlState) :
    Except SwarmControllerError Unit × CtrlState :=
  (.ok (), { s with signaling_client := none, is_connected := false })

/-- The `target_peer_info` value built inside `build_onion_circuit`,
swarm_controller.rs lines 210-216. -/
def target_peer_info (target_peer : String) : PeerInfo :=
  { peer_id := target_peer
    public_key := []
    capabilities := PeerCapabilities.defaultCaps
    last_seen := 0
    addresses := [] }

/-- Environment of one `build_onion_circuit` call: the awaited result of
`self.discover_peers("default")`, the permutation
`selected_peers.shuffle(&mut rng)` applies to a list, and the fresh uuid
string `uuid::Uuid::new_v4()`. -/
structure BuildEnv where
  discovered : Except SwarmControllerError (List PeerInfo)
  shuffled : List PeerInfo → List PeerInfo
  uuid : String

/-- The values `build_onion_circuit` computes on the success path: the
local `circuit_peers` hop path and the returned `circuit_id`.  The source
returns only `circuit_id`; `circuit_peers` is exposed here so the shape of
the constructed path can be stated. -/
structure BuiltCircuit where
  circuit_peers : List PeerInfo
  circuit_id : String
deriving DecidableEq, Repr

/-- `SwarmController::build_onion_circuit`, swarm_controller.rs lines
178-234.  `min_hops`/`max_hops` are `u8` values (< 256).  The source
computes `max_hops as usize - 1` for the peer-count check and
`(max_hops - 1) as usize` for the take count; both subtractions are
modelled with the release-build wraparound (`% USIZE` resp. `% 256`). -/
def build_onion_circuit (env : BuildEnv) (platform : Platform)
    (target_peer : String) (min_hops max_hops : Nat) :
    Except SwarmControllerError BuiltCircuit :=
  let capabilities := transport_capabilities platform
  if min_hops < capabilities.min_hops || max_hops > capabilities.max_hops then
    .error (.invalidCircuitConfig
      ("Hops must be between " ++ toString capabilities.min_hops ++
        " and " ++ toString capabilities.max_hops))
  else
    match env.discovered with
    | .error e => .error e
    | .ok peers =>
      if peers.length < (max_hops + (USIZE - 1)) % USIZE then
        let need := (max_hops + 255) % 256
        .error (.notEnoughPeers
          ("Need at least " ++ toString need ++ " peers for " ++
            toString max_hops ++ "-hop circuit, found " ++ toString peers.length))
      else
        let selected_peers := env.shuffled peers
        let circuit_peers :=
          selected_peers.take ((max_hops + 255) % 256) ++ [target_peer_info target_peer]
        let circuit_id := "circuit_" ++ env.uuid
        .ok { circuit_peers := circuit_peers, circuit_id := circuit_id }

/-- `build_onion_circuit` as a state transformer on the controller: the
method takes `&self` and writes none of the controller's cells, so the
state component is returned unchanged. -/
def SwarmController.build_onion_circuit_step (s : CtrlState) (env : BuildEnv)
    (platform : Platform) (target_peer : String) (min_hops max_hops : Nat) :
    Except SwarmControllerError BuiltCircuit × CtrlState :=
  (build_onion_circuit env platform target_peer min_hops max_hops, s)

/-- `SwarmController::teardown_circuit`, swarm_controller.rs lines
253-257: logs and returns `Ok(())`; no controller state is touched. -/
def SwarmController.teardown_circuit (s : CtrlState) (_circuit_id : String) :
    Except SwarmControllerError Unit × CtrlState :=
  (.ok (), s)

/-! ## Relay-mediated transport (crate zks_wasm) -/

/-- `TransportState` from zks_wasm/src/transport.rs. -/
inductive TransportState where
  | disconnected
  | connecting
  | connected
  | error
deriving DecidableEq, Repr

/-- `OnionHop` from zks_wasm/src/onion_transport.rs. -/
structure OnionHop where
  relay_url : String
  peer_id : String
  public_key : List Nat
deriving DecidableEq, Repr

/-- `OnionCircuit` from onion_transport.rs. -/
structure OnionCircuit where
  circuit_id : String
  hops : List OnionHop
  encryption_keys : List (List Nat)
deriving DecidableEq, Repr

/-- `OnionMessage` from onion_transport.rs. -/
inductive OnionMessage where
  | buildCircuit (circuit_id : String) (hops : List OnionHop)
  | circuitBuilt (circuit_id : String)
  | forwardData (circuit_id : String) (data : List Nat)
  | dataReceived (circuit_id : String) (data : List Nat)
  | tearDownCircuit (circuit_id : String)
  | circuitTornDown (circuit_id : String)
  | errorMsg (circuit_id : Option String) (code : String) (message : String)
deriving DecidableEq, Repr

/-- Value of one character in the standard base64 alphabet. -/
def b64Val (c : Char) : Option Nat :=
  if 'A' ≤ c ∧ c ≤ 'Z' then some (c.toNat - 65)
  else if 'a' ≤ c ∧ c ≤ 'z' then some (c.toNat - 97 + 26)
  else if '0' ≤ c ∧ c ≤ '9' then some (c.toNat - 48 + 52)
  else if c = '+' then some 62
  else if c = '/' then some 63
  else none

/-- base64 decoding of a character list, four characters at a time,
mirroring the `general_purpose::STANDARD` engine of the base64 crate used
by `build_circuit`: standard alphabet, canonical padding required (length
a multiple of four, `=` only at the very end), non-zero trailing bits
rejected.  `none` models a `DecodeError`. -/
def base64DecodeChunks : List Char → Option (List Nat)
  | [] => some []
  | a :: b :: c :: d :: rest =>
    match b64Val a, b64Val b with
    | some va, some vb =>
      if c = '=' then
        if d = '=' ∧ rest = [] ∧ vb % 16 = 0 then
          some [va * 4 + vb / 16]
        else none
      else
        match b64Val c with
        | some vc =>
          if d = '=' then
            if rest = [] ∧ vc % 4 = 0 then
              some [va * 4 + vb / 16, vb % 16 * 16 + vc / 4]
            else none
          else
            match b64Val d with
            | some vd =>
              match base64DecodeChunks rest with
              | some tail =>
                  some ((va * 4 + vb / 16) :: (vb % 16 * 16 + vc / 4) ::
                    (vc % 4 * 64 + vd) :: tail)
              | none => none
            | none => none
        | none => none
    | _, _ => none
  | _ => none

/-- `general_purpose::STANDARD.decode` on a string. -/
def base64Decode (s : String) : Option (List Nat) :=
  base64DecodeChunks s.data

/-- Worker for `splitComma`: split a character list at every comma,
keeping empty fields. -/
def splitCommaChars : List Char → List Char → List String
  | [], acc => [⟨acc.reverse⟩]
  | ch :: rest, acc =>
      if ch = ',' then ⟨acc.reverse⟩ :: splitCommaChars rest []
      else splitCommaChars rest (ch :: acc)

/-- `str::split(',')`: split at every comma, keeping empty fields (the
empty string splits to one empty field). -/
def splitComma (s : String) : List String :=
  splitCommaChars s.data []

/-- The mutable state of `BrowserOnionTransport` (onion_transport.rs):
whether a websocket is installed, the circuit map (association list with
unique keys, modelling the `HashMap`), the inbound FIFO payload queue and
the connection state. -/
structure BrowserOnionState where
  websocket : Bool
  circuits : List (String × OnionCircuit)
  message_queue : List (List Nat)
  state : TransportState
deriving DecidableEq, Repr

/-- `BrowserOnionTransport::new`. -/
def BrowserOnionState.initial : BrowserOnionState :=
  { websocket := false, circuits := [], message_queue := [], state := .disconnected }

/-- `HashMap::insert` on the circuit map. -/
def circuitsInsert (m : List (String × OnionCircuit)) (k : String)
    (v : OnionCircuit) : List (String × OnionCircuit) :=
  (k, v) :: m.filter (fun kv => decide (kv.1 ≠ k))

/-- `HashMap::remove` on the circuit map. -/
def circuitsRemove (m : List (String × OnionCircuit)) (k : String) :
    List (String × OnionCircuit) :=
  m.filter (fun kv => decide (kv.1 ≠ k))

/-- The `onopen` handler installed by
`BrowserOnionTransport::setup_event_handlers` (onion_transport.rs lines
296-301): sets the state to `Connected`. -/
def onionOnOpen (s : BrowserOnionState) : BrowserOnionState :=
  { s with state := .connected }

/-- The `onmessage` handler (onion_transport.rs lines 304-340), applied to
the parse result of the received text (`none` models a parse failure):
`DataReceived` enqueues the payload, `CircuitTornDown` and
`TearDownCircuit` remove the circuit, everything else only logs. -/
def onionOnMessage (s : BrowserOnionState) (msg : Option OnionMessage) :
    BrowserOnionState :=
  match msg with
  | some (.dataReceived _ data) =>
      { s with message_queue := s.message_queue ++ [data] }
  | some (.circuitTornDown cid) =>
      { s with circuits := circuitsRemove s.circuits cid }
  | some (.tearDownCircuit cid) =>
      { s with circuits := circuitsRemove s.circuits cid }
  | _ => s

/-- The `onerror` handler (onion_transport.rs lines 343-349): sets the
state to `Error` and touches nothing else. -/
def onionOnError (s : BrowserOnionState) : BrowserOnionState :=
  { s with state := .error }

/-- The `onclose` handler (onion_transport.rs lines 352-358): sets the
state to `Disconnected` and touches nothing else. -/
def onionOnClose (s : BrowserOnionState) : BrowserOnionState :=
  { s with state := .disconnected }

/-- `BrowserOnionTransport::disconnect`, onion_transport.rs lines 252-261:
closes and drops the socket, clears the circuit map and the inbound
queue, sets the state to `Disconnected`. -/
def browserDisconnect (s : BrowserOnionState) : BrowserOnionState :=
  { s with
    state := .disconnected
    websocket := false
    circuits := []
    message_queue := [] }

/-- The per-hop parsing loop of `BrowserOnionTransport::build_circuit`
(onion_transport.rs lines 177-191).  An input element is the `as_string`
view of one `JsValue` (`none` for a non-string).  For each descriptor the
field count is checked first, then the third field is base64-decoded (the
source's decode error message carries the underlying error's text, fixed
here to its constant prefix). -/
def parseHops : List (Option String) → Except String (List OnionHop)
  | [] => .ok []
  | none :: _ => .error "Invalid hop format"
  | some hop_str :: rest =>
    match splitComma hop_str with
    | [relay_url, peer_id, key] =>
      match base64Decode key with
      | none => .error "Invalid public key"
      | some public_key =>
        match parseHops rest with
        | .error e => .error e
        | .ok hs =>
            .ok ({ relay_url := relay_url, peer_id := peer_id,
                   public_key := public_key } :: hs)
    | _ => .error "Each hop must be in format: relay_url,peer_id,public_key"

/-- `BrowserOnionTransport::build_circuit`, onion_transport.rs lines
174-211.  `uuid` is the fresh `Uuid::new_v4` string used as circuit id.
Returns the call result, the post-state and the list of messages sent to
the relay: on any parse error nothing is stored and nothing is sent; on
success the circuit is stored with empty `encryption_keys` and then
`BuildCircuit` is sent (the send errors when no websocket is installed,
after the circuit was already stored). -/
def build_circuit (s : BrowserOnionState) (uuid : String)
    (hops : List (Option String)) :
    Except String String × BrowserOnionState × List OnionMessage :=
  let circuit_id := uuid
  match parseHops hops with
  | .error e => (.error e, s, [])
  | .ok onion_hops =>
    let circuit : OnionCircuit :=
      { circuit_id := circuit_id, hops := onion_hops, encryption_keys := [] }
    let s1 := { s with circuits := circuitsInsert s.circuits circuit_id circuit }
    if s1.websocket then
      (.ok circuit_id, s1, [.buildCircuit circuit_id onion_hops])
    else
      (.error "Not connected to relay", s1, [])

/-- `BrowserOnionTransport::teardown_circuit`, onion_transport.rs lines
239-248: removes the local entry, then sends `TearDownCircuit` (the send
errors when no websocket is installed). -/
def teardown_circuit (s : BrowserOnionState) (circuit_id : String) :
    Except String Unit × BrowserOnionState × List OnionMessage :=
  let s1 := { s with circuits := circuitsRemove s.circuits circuit_id }
  if s1.websocket then
    (.ok (), s1, [.tearDownCircuit circuit_id])
  else
    (.error "Not connected to relay", s1, [])

/-! ## Reconnecting websocket transport (zks_wasm/src/transport.rs) -/

/-- The mutable state of `WebSocketTransport`: connection state, inbound
queue, reconnection-attempt counter. -/
structure WsTransportState where
  state : TransportState
  message_queue : List (List Nat)
  reconnect_attempts : Nat
deriving DecidableEq, Repr

/-- `WebSocketTransport::new`. -/
def WsTransportState.initial : WsTransportState :=
  { state := .disconnected, message_queue := [], reconnect_attempts := 0 }

/-- One socket event delivered to the handlers installed by
`WebSocketTransport::setup_event_handlers`. -/
inductive WsEvent where
  | opened
  | message (data : List Nat)
  | errored
  | closed
deriving DecidableEq, Repr

/-- The event handlers of `WebSocketTransport::setup_event_handlers`
(transport.rs lines 140-213) as one step function; the second component
is the number of reconnection attempts the event schedules.  `onopen`
sets `Connected` and resets the counter to 0; `onclose` sets
`Disconnected` and, only while the counter is below the configured
maximum, increments it and schedules exactly one reconnection attempt. -/
def wsStep (max_reconnect_attempts : Nat) (s : WsTransportState) :
    WsEvent → WsTransportState × Nat
  | .opened => ({ s with state := .connected, reconnect_attempts := 0 }, 0)
  | .message data => ({ s with message_queue := s.message_queue ++ [data] }, 0)
  | .errored => ({ s with state := .error }, 0)
  | .closed =>
    if s.reconnect_attempts < max_reconnect_attempts then
      ({ s with
          state := .disconnected
          reconnect_attempts := s.reconnect_attempts + 1 }, 1)
    else
      ({ s with state := .disconnected }, 0)

/-- The handlers folded over a sequence of socket events, starting from a
freshly constructed transport. -/
def wsRun (max_reconnect_attempts : Nat) (events : List WsEvent) :
    WsTransportState :=
  events.foldl (fun s e => (wsStep max_reconnect_attempts s e).1)
    WsTransportState.initial

end ZKS

namespace ZKS

/-- Claim C1: `get_swarm_entropy` rejects an `EntropyResponse` whose
`request_id` differs from the one just sent with `UnexpectedMessage`;
rejects a matching response whose entropy payload is not exactly 32 bytes
with `InvalidEntropy`; and returns exactly the 32 entropy bytes when the
request id matches and the payload is 32 bytes long. -/
theorem c1_entropy_response_validation
    (reqId respId : String) (entropy sig : List Nat) (frames : List InFrame)
    (hrecv : receive_message frames = .ok (.entropyResponse respId entropy sig)) :
    (respId ≠ reqId →
      get_swarm_entropy reqId frames = .error (.unexpectedMessage "Request ID mismatch")) ∧
    (respId = reqId → entropy.length ≠ 32 →
      get_swarm_entropy reqId frames = .error (.invalidEntropy "Entropy must be 32 bytes")) ∧
    (respId = reqId → entropy.length = 32 →
      get_swarm_entropy reqId frames = .ok entropy) := by
  refine ⟨?_, ?_, ?_⟩ <;> intros <;>
    simp_all [get_swarm_entropy]

/-- Witness for C1 at a concrete input: a matching 32-byte response is
returned verbatim. -/
theorem c1_entropy_response_validation_witness :
    get_swarm_entropy "req-1"
      [InFrame.text (.ok (.entropyResponse "req-1" (List.replicate 32 7) []))] =
      .ok (List.replicate 32 7) :=
  (c1_entropy_response_validation "req-1" "req-1" (List.replicate 32 7) []
      [InFrame.text (.ok (.entropyResponse "req-1" (List.replicate 32 7) []))]
      rfl).2.2 rfl (by simp)

/-- Claim C7: `connect` uses a url starting with a websocket scheme
unchanged; any other url is rewritten by trimming trailing slashes,
prefixing the secure scheme and appending the fixed `/signaling` path. -/
theorem c7_url_normalization (url : String) :
    ((strStartsWith url "ws://" = true ∨ strStartsWith url "wss://" = true) →
      normalize_signaling_url url = url) ∧
    (¬ (strStartsWith url "ws://" = true ∨ strStartsWith url "wss://" = true) →
      normalize_signaling_url url =
        "wss://" ++ trimEndSlashes url ++ "/signaling") := by
  constructor <;> intro h <;> simp_all [normalize_signaling_url]

/-- Witness for C7 at a concrete input: a bare host gets the secure scheme
and `/signaling` path, trailing slash removed. -/
theorem c7_url_normalization_witness :
    normalize_signaling_url "example.com/" = "wss://example.com/signaling" := by
  have h := (c7_url_normalization "example.com/").2 (by decide)
  rw [h]; decide

end ZKS

namespace ZKS

/-- Claim C2: `build_onion_circuit` fails with `InvalidCircuitConfig`
whenever `min_hops` is below the platform's minimum hop bound or
`max_hops` is above the platform's maximum hop bound, the bounds being
native `min_hops=2`/`max_hops=8` and WebAssembly `min_hops=3`/`max_hops=6`. -/
theorem c2_hop_bound_validation (env : BuildEnv) (platform : Platform)
    (target : String) (min_hops max_hops : Nat)
    (h : min_hops < (transport_capabilities platform).min_hops ∨
         max_hops > (transport_capabilities platform).max_hops) :
    build_onion_circuit env platform target min_hops max_hops =
      .error (.invalidCircuitConfig
        ("Hops must be between " ++ toString (transport_capabilities platform).min_hops ++
          " and " ++ toString (transport_capabilities platform).max_hops)) ∧
    (transport_capabilities .native).min_hops = 2 ∧
    (transport_capabilities .native).max_hops = 8 ∧
    (transport_capabilities .webAssembly).min_hops = 3 ∧
    (transport_capabilities .webAssembly).max_hops = 6 := by
  refine ⟨?_, rfl, rfl, rfl, rfl⟩
  have hb : (decide (min_hops < (transport_capabilities platform).min_hops) ||
      decide ((transport_capabilities platform).max_hops < max_hops)) = true := by
    rcases h with h | h <;> simp [h]
  simp [build_onion_circuit, hb]

/-- Witness for C2 at a concrete input: native bounds are 2..8, so
`min_hops = 1` is rejected. -/
theorem c2_hop_bound_validation_witness :
    build_onion_circuit ⟨.ok [], id, "u"⟩ .native "peerX" 1 5 =
      .error (.invalidCircuitConfig "Hops must be between 2 and 8") := by
  have h := (c2_hop_bound_validation ⟨.ok [], id, "u"⟩ .native "peerX" 1 5
    (Or.inl (by decide))).1
  rw [h]
  exact congrArg Except.error (by decide)

/-- Counterexample to C3 as stated: with native bounds, target `"peerX"`,
`min_hops = max_hops = 2`, and a discovery result consisting of exactly
one peer whose id IS the target, the number of candidates besides the
target is 0, which is fewer than `max_hops - 1 = 1`, yet the call does
not fail with `NotEnoughPeers`: the source counts the discovered list
as-is (the target is not excluded) and succeeds, even routing through the
target itself. -/
theorem c3_counterexample :
    (List.filter (fun p => decide (p.peer_id ≠ "peerX"))
        [target_peer_info "peerX"]).length < 2 - 1 ∧
    build_onion_circuit ⟨.ok [target_peer_info "peerX"], id, "u"⟩ .native "peerX" 2 2 =
      .ok { circuit_peers := [target_peer_info "peerX", target_peer_info "peerX"]
            circuit_id := "circuit_u" } := by
  constructor
  · decide
  · rfl

/-- Claim C3 as amended: for a call that passes the hop-bound validation,
the call fails with `NotEnoughPeers` whenever the discovered peer list,
counted as returned (without excluding any entry equal to the target),
has fewer than `max_hops - 1` entries. -/
theorem c3_not_enough_peers (env : BuildEnv) (platform : Platform)
    (target : String) (min_hops max_hops : Nat) (peers : List PeerInfo)
    (hok : env.discovered = .ok peers)
    (hb1 : ¬ min_hops < (transport_capabilities platform).min_hops)
    (hb2 : ¬ max_hops > (transport_capabilities platform).max_hops)
    (h1 : 1 ≤ max_hops) (h255 : max_hops < 256)
    (hlen : peers.length < max_hops - 1) :
    build_onion_circuit env platform target min_hops max_hops =
      .error (.notEnoughPeers
        ("Need at least " ++ toString (max_hops - 1) ++ " peers for " ++
          toString max_hops ++ "-hop circuit, found " ++ toString peers.length)) := by
  have hmod : (max_hops + (USIZE - 1)) % USIZE = max_hops - 1 := by
    have hU : USIZE = 18446744073709551616 := by norm_num [USIZE]
    rw [hU]
    omega
  have hmod8 : (max_hops + 255) % 256 = max_hops - 1 := by omega
  simp [build_onion_circuit, hok, hb1, hb2, hmod, hmod8, hlen]

/-- Witness for the amended C3: native bounds, 0 peers discovered,
`max_hops = 4` requires 3 peers. -/
theorem c3_not_enough_peers_witness :
    build_onion_circuit ⟨.ok [], id, "u"⟩ .native "peerX" 2 4 =
      .error (.notEnoughPeers "Need at least 3 peers for 4-hop circuit, found 0") := by
  have h := c3_not_enough_peers ⟨.ok [], id, "u"⟩ .native "peerX" 2 4 []
    rfl (by decide) (by decide) (by decide) (by decide) (by decide)
  rw [h]
  exact congrArg Except.error (by decide)

/-- Claim C9: `SwarmController::connect` is not atomic on failure: it
stores the new `local_peer_id` before attempting the signaling handshake,
so on a handshake error a previously-disconnected controller reports the
new peer id while `is_connected()` stays false and no signaling client is
installed, and the call returns a wrapped `SignalingError`. -/
theorem c9_connect_not_atomic (s : CtrlState) (pid e : String)
    (hconn : s.is_connected = false) (hcl : s.signaling_client = none) :
    SwarmController.local_peer_id (SwarmController.connect s pid (.error e)).2 = some pid ∧
    SwarmController.is_connected (SwarmController.connect s pid (.error e)).2 = false ∧
    (SwarmController.connect s pid (.error e)).2.signaling_client = none ∧
    (SwarmController.connect s pid (.error e)).1 =
      .error (.signalingError ("Failed to connect to signaling server: " ++ e)) := by
  simp [SwarmController.connect, SwarmController.local_peer_id,
    SwarmController.is_connected, hconn, hcl]

/-- Witness for C9 at a concrete input: connecting a fresh controller with
peer id `"p"` against a failing handshake leaves the peer id stored and
the controller disconnected. -/
theorem c9_connect_not_atomic_witness :
    SwarmController.local_peer_id
        (SwarmController.connect CtrlState.initial "p" (.error "refused")).2 = some "p" ∧
    SwarmController.is_connected
        (SwarmController.connect CtrlState.initial "p" (.error "refused")).2 = false :=
  ⟨(c9_connect_not_atomic CtrlState.initial "p" "refused" rfl rfl).1,
   (c9_connect_not_atomic CtrlState.initial "p" "refused" rfl rfl).2.1⟩

end ZKS

namespace ZKS

/-- Claim C10: every successful `build_onion_circuit` call constructs a
hop path of exactly `max_hops` entries, namely `max_hops - 1` peers taken
from the randomly shuffled discovered list followed by the target as the
final hop; `min_hops` has no effect on the result beyond the initial
bound check; the returned circuit identifier is `"circuit_"` followed by
the fresh uuid; and the call leaves the controller state unchanged (the
circuit is not recorded anywhere in it).  The hypotheses state that the
rng shuffle permutes its input and that a discovered `Vec`'s length is
below the `usize` range, both guaranteed on the Rust side. -/
theorem c10_success_shape (s : CtrlState) (env : BuildEnv) (platform : Platform)
    (target : String) (min_hops max_hops : Nat) (r : BuiltCircuit)
    (h255 : max_hops < 256)
    (hperm : ∀ l, (env.shuffled l).Perm l)
    (hvec : ∀ ps, env.discovered = .ok ps → ps.length < USIZE - 1)
    (hok : build_onion_circuit env platform target min_hops max_hops = .ok r) :
    r.circuit_peers.length = max_hops ∧
    r.circuit_id = "circuit_" ++ env.uuid ∧
    (∃ peers, env.discovered = .ok peers ∧
      r.circuit_peers =
        (env.shuffled peers).take (max_hops - 1) ++ [target_peer_info target] ∧
      ∀ x ∈ (env.shuffled peers).take (max_hops - 1), x ∈ peers) ∧
    (∀ min2, (transport_capabilities platform).min_hops ≤ min2 →
      build_onion_circuit env platform target min2 max_hops = .ok r) ∧
    (SwarmController.build_onion_circuit_step s env platform target min_hops
      max_hops).2 = s := by
  have hU : USIZE = 18446744073709551616 := by norm_num [USIZE]
  rw [build_onion_circuit] at hok
  split at hok
  · exact absurd hok (by simp)
  · rename_i hc
    simp only [Bool.or_eq_true, decide_eq_true_eq, not_or] at hc
    obtain ⟨hcmin, hcmax⟩ := hc
    cases hdisc : env.discovered with
    | error e => rw [hdisc] at hok; simp at hok
    | ok peers =>
      rw [hdisc] at hok
      simp only [] at hok
      split at hok
      · simp at hok
      · rename_i hge
        simp only [decide_eq_true_eq, not_lt] at hge
        have hplen : peers.length < USIZE - 1 := hvec peers hdisc
        have h1 : 1 ≤ max_hops := by
          by_contra h0
          have hz : max_hops = 0 := by omega
          rw [hz, hU] at hge
          rw [hU] at hplen
          omega
        have hmod : (max_hops + (USIZE - 1)) % USIZE = max_hops - 1 := by
          rw [hU]; omega
        have hmod8 : (max_hops + 255) % 256 = max_hops - 1 := by omega
        rw [hmod] at hge
        rw [hmod8] at hok
        have hslen : (env.shuffled peers).length = peers.length :=
          (hperm peers).length_eq
        cases hok
        refine ⟨?_, rfl, ⟨peers, rfl, rfl, ?_⟩, ?_, rfl⟩
        · simp only [List.length_append, List.length_take, List.length_cons,
            List.length_nil, hslen]
          omega
        · intro x hx
          exact ((hperm peers).mem_iff).mp (List.take_subset _ _ hx)
        · intro min2 hmin2
          have hmin2' : ¬ min2 < (transport_capabilities platform).min_hops := by
            omega
          have hge' : ¬ peers.length < (max_hops + (USIZE - 1)) % USIZE := by
            rw [hmod]; omega
          simp [build_onion_circuit, hdisc, hmin2', hcmax, hge', hmod8]

end ZKS

namespace ZKS

/-- Witness for C10 at a concrete input: with two discovered peers, an
identity shuffle and uuid `"u"`, a native 3-hop build succeeds with the
two peers followed by the target, and `min_hops = 3` gives the same
result as `min_hops = 2`. -/
theorem c10_success_shape_witness :
    build_onion_circuit
        ⟨.ok [target_peer_info "a", target_peer_info "b"], id, "u"⟩ .native "t" 3 3 =
      .ok { circuit_peers :=
              [target_peer_info "a", target_peer_info "b", target_peer_info "t"]
            circuit_id := "circuit_u" } :=
  (c10_success_shape CtrlState.initial
      ⟨.ok [target_peer_info "a", target_peer_info "b"], id, "u"⟩ .native "t" 2 3
      { circuit_peers :=
          [target_peer_info "a", target_peer_info "b", target_peer_info "t"]
        circuit_id := "circuit_u" }
      (by decide) (fun l => List.Perm.refl l)
      (by intro ps h; cases h; decide) (by rfl)).2.2.2.1 3 (by decide)

end ZKS

namespace ZKS

/-- Counterexample to C4 as stated: on a connected transport holding one
circuit and one queued payload, the close handler sets the state to
`Disconnected` and the error handler sets it to `Error`, but neither
clears the circuit map or the inbound queue — only the explicit
`disconnect()` call does. -/
theorem c4_counterexample :
    (onionOnClose
        ⟨true, [("c", ⟨"c", [], []⟩)], [[1]], .connected⟩).state = .disconnected ∧
    (onionOnError
        ⟨true, [("c", ⟨"c", [], []⟩)], [[1]], .connected⟩).state = .error ∧
    ¬ ((onionOnClose
          ⟨true, [("c", ⟨"c", [], []⟩)], [[1]], .connected⟩).circuits = [] ∧
        (onionOnClose
          ⟨true, [("c", ⟨"c", [], []⟩)], [[1]], .connected⟩).message_queue = []) ∧
    ¬ ((onionOnError
          ⟨true, [("c", ⟨"c", [], []⟩)], [[1]], .connected⟩).circuits = [] ∧
        (onionOnError
          ⟨true, [("c", ⟨"c", [], []⟩)], [[1]], .connected⟩).message_queue = []) := by
  decide

/-- Claim C4 as amended: the socket close handler only sets the state to
`Disconnected` and the error handler only sets it to `Error`, each
leaving the circuit map and the inbound queue untouched; the circuit map
and the queue are cleared (and the state set to `Disconnected`) only by
the explicit `disconnect()` call. -/
theorem c4_close_error_handlers (s : BrowserOnionState) :
    (onionOnClose s).state = .disconnected ∧
    (onionOnClose s).circuits = s.circuits ∧
    (onionOnClose s).message_queue = s.message_queue ∧
    (onionOnError s).state = .error ∧
    (onionOnError s).circuits = s.circuits ∧
    (onionOnError s).message_queue = s.message_queue ∧
    (browserDisconnect s).circuits = [] ∧
    (browserDisconnect s).message_queue = [] ∧
    (browserDisconnect s).state = .disconnected := by
  simp [onionOnClose, onionOnError, browserDisconnect]

end ZKS

namespace ZKS

/-- Helper: one handler step keeps the reconnection counter within the
configured maximum. -/
theorem wsStep_attempts_le (maxA : Nat) (s : WsTransportState) (e : WsEvent)
    (h : s.reconnect_attempts ≤ maxA) :
    (wsStep maxA s e).1.reconnect_attempts ≤ maxA := by
  cases e with
  | opened => simp [wsStep]
  | message d => simpa [wsStep] using h
  | errored => simpa [wsStep] using h
  | closed =>
    simp only [wsStep]
    split
    · rename_i hlt
      simp
      omega
    · simpa using h

/-- Helper: folding the handlers over any event sequence keeps the
counter within the maximum, given it starts within. -/
theorem wsFold_attempts_le (maxA : Nat) :
    ∀ (events : List WsEvent) (s : WsTransportState),
      s.reconnect_attempts ≤ maxA →
      (events.foldl (fun s e => (wsStep maxA s e).1) s).reconnect_attempts ≤ maxA := by
  intro events
  induction events with
  | nil => intro s hs; simpa using hs
  | cons e es ih =>
    intro s hs
    simp only [List.foldl_cons]
    exact ih _ (wsStep_attempts_le maxA s e hs)

/-- Claim C5: over every sequence of socket events from a fresh transport
the reconnection counter never exceeds `max_reconnect_attempts`; each
event schedules at most one reconnection attempt, and an attempt is
scheduled only by a close event while the counter is below the maximum;
and the counter resets to 0 whenever a connection is (re)established
(the open handler fires). -/
theorem c5_reconnect_attempts_bounded (maxA : Nat) (events : List WsEvent) :
    (wsRun maxA events).reconnect_attempts ≤ maxA ∧
    (∀ s, (wsStep maxA s .opened).1.reconnect_attempts = 0) ∧
    (∀ s e, (wsStep maxA s e).2 ≤ 1) ∧
    (∀ s e, (wsStep maxA s e).2 = 1 →
      e = .closed ∧ s.reconnect_attempts < maxA) := by
  refine ⟨?_, ?_, ?_, ?_⟩
  · have h := wsFold_attempts_le maxA events WsTransportState.initial
      (by simp [WsTransportState.initial])
    simpa [wsRun] using h
  · intro s; simp [wsStep]
  · intro s e
    cases e
    · simp [wsStep]
    · simp [wsStep]
    · simp [wsStep]
    · simp only [wsStep]
      split <;> simp
  · intro s e h
    cases e with
    | opened => simp [wsStep] at h
    | message d => simp [wsStep] at h
    | errored => simp [wsStep] at h
    | closed =>
      refine ⟨rfl, ?_⟩
      by_contra hge
      simp [wsStep, hge] at h

/-- Witness for C5 at a concrete input: four close events against
`max_reconnect_attempts = 3` leave the counter at most 3, and a close on
the fresh transport schedules an attempt because the counter 0 is below
the maximum. -/
theorem c5_reconnect_attempts_bounded_witness :
    (wsRun 3 [.closed, .closed, .closed, .closed]).reconnect_attempts ≤ 3 ∧
    (WsEvent.closed = WsEvent.closed ∧
      WsTransportState.initial.reconnect_attempts < 3) :=
  ⟨(c5_reconnect_attempts_bounded 3 [.closed, .closed, .closed, .closed]).1,
   (c5_reconnect_attempts_bounded 3 []).2.2.2
     WsTransportState.initial .closed (by decide)⟩

/-- Helper: looking up a key just removed from the circuit map fails. -/
theorem lookup_circuitsRemove (k : String) (m : List (String × OnionCircuit)) :
    List.lookup k (circuitsRemove m k) = none := by
  induction m with
  | nil => rfl
  | cons kv tl ih =>
    rcases kv with ⟨k1, v⟩
    by_cases h : k1 = k
    · simpa [circuitsRemove, h] using ih
    · have hstep : circuitsRemove ((k1, v) :: tl) k = (k1, v) :: circuitsRemove tl k := by
        simp [circuitsRemove, h]
      rw [hstep]
      have h' : ¬ k = k1 := fun hh => h hh.symm
      have hbeq : (k == k1) = false := by simp [h']
      simp [List.lookup, hbeq, ih]

/-- Helper: the state after `teardown_circuit` is the input state with the
circuit removed, in both the connected and the disconnected branch. -/
theorem teardown_state_eq (s : BrowserOnionState) (cid : String) :
    (teardown_circuit s cid).2.1 =
      { s with circuits := circuitsRemove s.circuits cid } := by
  simp only [teardown_circuit]
  split <;> rfl

/-- Helper: the result of `teardown_circuit` depends only on whether a
websocket is installed. -/
theorem teardown_result_eq (s : BrowserOnionState) (cid : String) :
    (teardown_circuit s cid).1 =
      if s.websocket then .ok () else .error "Not connected to relay" := by
  simp only [teardown_circuit]
  split <;> rename_i h <;> simp_all

/-- Claim C8: circuit teardown is idempotent from the caller's view:
after the first `teardown_circuit` the circuit id is absent from the
local map; a second call with the same id returns the same state and the
same (non-fatal) result as the first; and the controller-level
`teardown_circuit` always returns `Ok` without touching controller state
(both embeddings are total functions, so neither call can crash). -/
theorem c8_teardown_idempotent (s : BrowserOnionState) (cid : String)
    (cs : CtrlState) (cid2 : String) :
    List.lookup cid (teardown_circuit s cid).2.1.circuits = none ∧
    (teardown_circuit (teardown_circuit s cid).2.1 cid).2.1 =
      (teardown_circuit s cid).2.1 ∧
    (teardown_circuit (teardown_circuit s cid).2.1 cid).1 =
      (teardown_circuit s cid).1 ∧
    SwarmController.teardown_circuit cs cid2 = (.ok (), cs) := by
  have hrem : circuitsRemove (circuitsRemove s.circuits cid) cid =
      circuitsRemove s.circuits cid := by
    simp [circuitsRemove, List.filter_filter]
  refine ⟨?_, ?_, ?_, rfl⟩
  · rw [teardown_state_eq]
    exact lookup_circuitsRemove cid s.circuits
  · rw [teardown_state_eq, teardown_state_eq]
    simp [hrem]
  · rw [teardown_result_eq, teardown_result_eq, teardown_state_eq]

end ZKS

namespace ZKS

/-- Helper: a string descriptor that does not split into exactly three
comma-separated fields makes the parse loop fail with the fixed format
error. -/
theorem parseHops_cons_not3 (str : String) (rest : List (Option String))
    (h3 : (splitComma str).length ≠ 3) :
    parseHops (some str :: rest) =
      .error "Each hop must be in format: relay_url,peer_id,public_key" := by
  rcases hsp : splitComma str with _ | ⟨a, tl1⟩
  · simp [parseHops, hsp]
  · rcases tl1 with _ | ⟨b, tl2⟩
    · simp [parseHops, hsp]
    · rcases tl2 with _ | ⟨c, tl3⟩
      · simp [parseHops, hsp]
      · rcases tl3 with _ | ⟨d, tl4⟩
        · exact absurd (by rw [hsp]; rfl) h3
        · simp [parseHops, hsp]

/-- Helper: a descriptor list containing a malformed descriptor (a
non-string, or a string without exactly three comma-separated fields)
makes the parse loop fail with some error. -/
theorem parseHops_error_of_malformed :
    ∀ hops : List (Option String),
      (∃ h ∈ hops, ∀ str, h = some str → (splitComma str).length ≠ 3) →
      ∃ e, parseHops hops = .error e := by
  intro hops
  induction hops with
  | nil =>
    rintro ⟨h, hmem, _⟩
    exact absurd hmem (List.not_mem_nil h)
  | cons hd tl ih =>
    rintro ⟨h, hmem, hbad⟩
    cases hd with
    | none => exact ⟨"Invalid hop format", rfl⟩
    | some str =>
      by_cases h3 : (splitComma str).length = 3
      · obtain ⟨a, b, c, hsp⟩ := List.length_eq_three.mp h3
        rcases List.mem_cons.mp hmem with rfl | hmem'
        · exact absurd h3 (hbad str rfl)
        · cases hdec : base64Decode c with
          | none => exact ⟨"Invalid public key", by simp [parseHops, hsp, hdec]⟩
          | some key =>
            obtain ⟨e, he⟩ := ih ⟨h, hmem', hbad⟩
            exact ⟨e, by simp [parseHops, hsp, hdec, he]⟩
      · exact ⟨_, parseHops_cons_not3 str tl h3⟩

/-- Helper: when every descriptor is a string of exactly three fields
whose third field base64-decodes, the parse loop succeeds. -/
theorem parseHops_ok_of_wellFormed :
    ∀ hops : List (Option String),
      (∀ h ∈ hops, ∃ str r p k key, h = some str ∧ splitComma str = [r, p, k] ∧
        base64Decode k = some key) →
      ∃ hs, parseHops hops = .ok hs := by
  intro hops
  induction hops with
  | nil => intro _; exact ⟨[], rfl⟩
  | cons hd tl ih =>
    intro hall
    obtain ⟨str, r, p, k, key, heq, hsp, hdec⟩ :=
      hall hd (List.mem_cons_self hd tl)
    subst heq
    obtain ⟨hs, hhs⟩ := ih (fun h hm => hall h (List.mem_cons_of_mem _ hm))
    exact ⟨{ relay_url := r, peer_id := p, public_key := key } :: hs,
      by simp [parseHops, hsp, hdec, hhs]⟩

/-- Claim C6: relay-side `build_circuit` fails before storing any circuit
and before sending any message when some descriptor does not split into
exactly three comma-separated fields (the state is returned unchanged and
the sent-message list is empty); when every descriptor is well-formed — a
string of exactly three fields whose third field is valid base64 — and a
websocket is installed, the parsed circuit is stored locally with an
empty encryption-key list and then a single `BuildCircuit` message is
sent. -/
theorem c6_build_circuit_validation (s : BrowserOnionState) (uuid : String)
    (hops : List (Option String)) :
    ((∃ h ∈ hops, ∀ str, h = some str → (splitComma str).length ≠ 3) →
      ∃ e, build_circuit s uuid hops = (.error e, s, [])) ∧
    ((∀ h ∈ hops, ∃ str r p k key, h = some str ∧ splitComma str = [r, p, k] ∧
        base64Decode k = some key) →
      s.websocket = true →
      ∃ hs, parseHops hops = .ok hs ∧
        build_circuit s uuid hops =
          (.ok uuid,
            { s with circuits := circuitsInsert s.circuits uuid ⟨uuid, hs, []⟩ },
            [.buildCircuit uuid hs])) := by
  constructor
  · intro hbad
    obtain ⟨e, he⟩ := parseHops_error_of_malformed hops hbad
    exact ⟨e, by simp [build_circuit, he]⟩
  · intro hwf hws
    obtain ⟨hs, hhs⟩ := parseHops_ok_of_wellFormed hops hwf
    refine ⟨hs, hhs, ?_⟩
    simp [build_circuit, hhs, hws]

/-- Witness for C6 at concrete inputs: the two-field descriptor
`"relayA,peerA"` is rejected with the state unchanged and nothing sent,
while the well-formed descriptor `"r,p,AAAA"` is stored (keys empty) and
`BuildCircuit` is sent. -/
theorem c6_build_circuit_validation_witness :
    (∃ e, build_circuit ⟨true, [], [], .connected⟩ "u" [some "relayA,peerA"] =
      (.error e, ⟨true, [], [], .connected⟩, [])) ∧
    (∃ hs, parseHops [some "r,p,AAAA"] = .ok hs ∧
      build_circuit ⟨true, [], [], .connected⟩ "u" [some "r,p,AAAA"] =
        (.ok "u",
          { (⟨true, [], [], .connected⟩ : BrowserOnionState) with
              circuits := circuitsInsert [] "u" ⟨"u", hs, []⟩ },
          [.buildCircuit "u" hs])) :=
  ⟨(c6_build_circuit_validation ⟨true, [], [], .connected⟩ "u"
      [some "relayA,peerA"]).1
      ⟨some "relayA,peerA", by simp,
        by intro str hstr; cases hstr; decide⟩,
   (c6_build_circuit_validation ⟨true, [], [], .connected⟩ "u"
      [some "r,p,AAAA"]).2
      (by
        intro h hm
        simp only [List.mem_singleton] at hm
        subst hm
        exact ⟨"r,p,AAAA", "r", "p", "AAAA", [0, 0, 0], rfl, by decide, by decide⟩)
      rfl⟩

end ZKS
